import Mathlib

set_option maxRecDepth 16384

deriving instance DecidableEq for Except

/-
Verification development for the core of an OIDC provider:
the session/token lifecycle (SessionDB) and the client-authentication
dispatch (client_authn.py).

The client-authentication component is embedded from
src/oicsrv/client_authn.py.  The session database component is not part
of the provided sources (only its test suite is), so it is modelled from
the specification, with the concrete subject-derivation formula fixed by
the digest vectors asserted in tests/test_08_session.py.
-/

/-! ## SHA-256, executable over `Nat` (bytes are `Nat < 256`, words `Nat < 2^32`) -/

namespace SHA256

def w32 (n : Nat) : Nat := n % 4294967296

def rotr (n x : Nat) : Nat := w32 (Nat.lor (x >>> n) (x <<< (32 - n)))

def bnot32 (x : Nat) : Nat := 4294967295 - x

def smallSigma0 (x : Nat) : Nat := Nat.xor (Nat.xor (rotr 7 x) (rotr 18 x)) (x >>> 3)

def smallSigma1 (x : Nat) : Nat := Nat.xor (Nat.xor (rotr 17 x) (rotr 19 x)) (x >>> 10)

def bigSigma0 (x : Nat) : Nat := Nat.xor (Nat.xor (rotr 2 x) (rotr 13 x)) (rotr 22 x)

def bigSigma1 (x : Nat) : Nat := Nat.xor (Nat.xor (rotr 6 x) (rotr 11 x)) (rotr 25 x)

def chf (x y z : Nat) : Nat := Nat.xor (Nat.land x y) (Nat.land (bnot32 x) z)

def majf (x y z : Nat) : Nat :=
  Nat.xor (Nat.xor (Nat.land x y) (Nat.land x z)) (Nat.land y z)

def K : List Nat :=
  [1116352408, 1899447441, 3049323471, 3921009573, 961987163,
   1508970993, 2453635748, 2870763221, 3624381080, 310598401,
   607225278, 1426881987, 1925078388, 2162078206, 2614888103,
   3248222580, 3835390401, 4022224774, 264347078, 604807628,
   770255983, 1249150122, 1555081692, 1996064986, 2554220882,
   2821834349, 2952996808, 3210313671, 3336571891, 3584528711,
   113926993, 338241895, 666307205, 773529912, 1294757372,
   1396182291, 1695183700, 1986661051, 2177026350, 2456956037,
   2730485921, 2820302411, 3259730800, 3345764771, 3516065817,
   3600352804, 4094571909, 275423344, 430227734, 506948616,
   659060556, 883997877, 958139571, 1322822218, 1537002063,
   1747873779, 1955562222, 2024104815, 2227730452, 2361852424,
   2428436474, 2756734187, 3204031479, 3329325298]

def H0 : List Nat :=
  [1779033703, 3144134277, 1013904242, 2773480762,
   1359893119, 2600822924, 528734635, 1541459225]

def lenBytes (n : Nat) : List Nat :=
  [n >>> 56 % 256, n >>> 48 % 256, n >>> 40 % 256, n >>> 32 % 256,
   n >>> 24 % 256, n >>> 16 % 256, n >>> 8 % 256, n % 256]

/-- Message padding: append 0x80, zero bytes up to 56 mod 64, then the
bit length as an 8-byte big-endian integer. -/
def pad (msg : List Nat) : List Nat :=
  let L := msg.length
  msg ++ [0x80] ++ List.replicate ((119 - (L % 64)) % 64) 0 ++ lenBytes (8 * L)

def bytesToWords : List Nat → List Nat
  | a :: b :: c :: d :: rest =>
      (a * 16777216 + b * 65536 + c * 256 + d) :: bytesToWords rest
  | _ => []

/-- Extend the 16 block words to the 64-entry message schedule. -/
def extend (w : List Nat) : List Nat :=
  (List.range 48).foldl
    (fun w i =>
      w ++ [w32 (smallSigma1 (w.getD (i + 14) 0) + w.getD (i + 9) 0 +
                  smallSigma0 (w.getD (i + 1) 0) + w.getD i 0)]) w

structure Hs where
  a : Nat
  b : Nat
  c : Nat
  d : Nat
  e : Nat
  f : Nat
  g : Nat
  h : Nat

def round (st : Hs) (kw : Nat × Nat) : Hs :=
  let t1 := w32 (st.h + bigSigma1 st.e + chf st.e st.f st.g + kw.1 + kw.2)
  let t2 := w32 (bigSigma0 st.a + majf st.a st.b st.c)
  ⟨w32 (t1 + t2), st.a, st.b, st.c, w32 (st.d + t1), st.e, st.f, st.g⟩

def processBlock (h : List Nat) (block : List Nat) : List Nat :=
  let w := extend (bytesToWords block)
  let st0 : Hs := ⟨h.getD 0 0, h.getD 1 0, h.getD 2 0, h.getD 3 0,
                   h.getD 4 0, h.getD 5 0, h.getD 6 0, h.getD 7 0⟩
  let st := (K.zip w).foldl round st0
  [w32 (h.getD 0 0 + st.a), w32 (h.getD 1 0 + st.b),
   w32 (h.getD 2 0 + st.c), w32 (h.getD 3 0 + st.d),
   w32 (h.getD 4 0 + st.e), w32 (h.getD 5 0 + st.f),
   w32 (h.getD 6 0 + st.g), w32 (h.getD 7 0 + st.h)]

def chunks64 : Nat → List Nat → List (List Nat)
  | 0, _ => []
  | _, [] => []
  | fuel + 1, xs => xs.take 64 :: chunks64 fuel (xs.drop 64)

def hexDigit (n : Nat) : Char :=
  if n < 10 then Char.ofNat (48 + n) else Char.ofNat (87 + n)

def wordHex (w : Nat) : List Char :=
  [hexDigit (w >>> 28 % 16), hexDigit (w >>> 24 % 16),
   hexDigit (w >>> 20 % 16), hexDigit (w >>> 16 % 16),
   hexDigit (w >>> 12 % 16), hexDigit (w >>> 8 % 16),
   hexDigit (w >>> 4 % 16), hexDigit (w % 16)]

def sha256bytes (msg : List Nat) : List Nat :=
  let p := pad msg
  (chunks64 p.length p).foldl processBlock H0

/-- UTF-8 bytes of a string; all inputs in this development are ASCII, for
which the code points are the bytes. -/
def strBytes (s : String) : List Nat := s.toList.map Char.toNat

/-- SHA-256 hex digest of (the ASCII bytes of) a string. -/
def sha256hex (s : String) : String :=
  String.mk (((sha256bytes (strBytes s)).map wordHex).flatten)

end SHA256

/-! ## Session Database

Modelled from the spec (the `oidcendpoint.session` sources are not among
the provided files; only their test suite `tests/test_08_session.py` is).
Tokens are opaque values carrying their kind, session id and a mint
counter (freshness); a fixed instant is modelled, so TTL expiry never
fires and `ExpiredToken` arises only from revocation/poisoning, which is
the behavior the tests exercise. -/

namespace OidcSession

inductive TokKind
  | A
  | T
  | R
deriving DecidableEq

/-- A minted token: its kind, the session it belongs to (the real tokens
embed the session id in the opaque string) and a freshness counter. -/
structure Token where
  kind : TokKind
  sid : Nat
  idx : Nat
deriving DecidableEq

/-- AuthnEvent: user `uid` was authenticated; `salt` is the per-user salt
chosen at authentication time. -/
structure AuthnEvent where
  uid : String
  salt : String
deriving DecidableEq

structure AuthorizationRequest where
  client_id : String
  redirect_uri : String
  response_type : String
  scope : List String
  state : String
deriving DecidableEq

/-- Modelled from the spec: the central session record.  Optional fields
are `Option`s; `fields` below lists the keys present in the dict. -/
structure SessionInfo where
  client_id : String
  authn_req : AuthorizationRequest
  authn_event : AuthnEvent
  sub : Option String
  oauth_state : String
  code : Token
  code_used : Bool
  access_token : Option Token
  refresh_token : Option Token
  id_token : Option String
  oidreq : Option String
  token_type : Option String
  expires_in : Option Nat
deriving DecidableEq

/-- Keys present in the session dict, in a fixed order. -/
def SessionInfo.fields (i : SessionInfo) : List String :=
  ["client_id", "authn_req", "authn_event"]
    ++ (match i.sub with | some _ => ["sub"] | none => [])
    ++ ["oauth_state", "code"]
    ++ (match i.access_token with | some _ => ["access_token"] | none => [])
    ++ (match i.refresh_token with | some _ => ["refresh_token"] | none => [])
    ++ (match i.id_token with | some _ => ["id_token"] | none => [])
    ++ (match i.oidreq with | some _ => ["oidreq"] | none => [])
    ++ (match i.token_type with | some _ => ["token_type"] | none => [])
    ++ (match i.expires_in with | some _ => ["expires_in"] | none => [])

inductive SErr
  | accessCodeUsed
  | expiredToken
  | wrongTokenType
  | keyError
deriving DecidableEq

/-- Modelled from the spec: the session database state.  `db` is the
sid-indexed store, `revoked` the set of revoked (tombstoned) tokens,
`counter` the mint counter, `nextSid` the sid allocator. -/
structure SDB where
  db : List (Nat × SessionInfo)
  revoked : List Token
  counter : Nat
  nextSid : Nat
deriving DecidableEq

def lookupSid : List (Nat × SessionInfo) → Nat → Option SessionInfo
  | [], _ => none
  | (k, v) :: rest, sid => if k = sid then some v else lookupSid rest sid

def storeSid : List (Nat × SessionInfo) → Nat → SessionInfo → List (Nat × SessionInfo)
  | [], sid, info => [(sid, info)]
  | (k, v) :: rest, sid, info =>
      if k = sid then (sid, info) :: rest else (k, v) :: storeSid rest sid info

/-- Mint a fresh token of the given kind for the given session. -/
def mint (s : SDB) (k : TokKind) (sid : Nat) : Token × SDB :=
  (⟨k, sid, s.counter⟩, { s with counter := s.counter + 1 })

def orO {α : Type} (a b : Option α) : Option α :=
  match a with
  | some x => some x
  | none => b

/-- Modelled from the spec: `create_authz_session` allocates a fresh sid,
mints a fresh code (kind A), initializes `oauth_state = authz`, copies
`authn_req`, `authn_event`, `client_id` and the optional `id_token` /
`oidreq`, and does NOT compute `sub`. -/
def create_authz_session (s : SDB) (ae : AuthnEvent) (areq : AuthorizationRequest)
    (client_id : String) (id_token : Option String) (oidreq : Option String) :
    Nat × SDB :=
  let sid := s.nextSid
  let code : Token := ⟨TokKind.A, sid, s.counter⟩
  let info : SessionInfo :=
    { client_id := client_id, authn_req := areq, authn_event := ae,
      sub := none, oauth_state := "authz", code := code, code_used := false,
      access_token := none, refresh_token := none,
      id_token := id_token, oidreq := oidreq,
      token_type := none, expires_in := none }
  (sid, { s with db := storeSid s.db sid info,
                 counter := s.counter + 1, nextSid := s.nextSid + 1 })

/-- Modelled from the spec: the subject-derivation hash.  The exact
concatenation is fixed by the digest vectors asserted in
tests/test_08_session.py: for subject_type public the digest is
SHA256(uid ‖ user_salt) where user_salt is the AuthnEvent salt, and for
pairwise it is SHA256(uid ‖ sector_id ‖ client_salt ‖ user_salt). -/
def mint_sub (ae : AuthnEvent) (client_salt sector_id subject_type : String) : String :=
  if subject_type = "public" then SHA256.sha256hex (ae.uid ++ ae.salt)
  else SHA256.sha256hex (ae.uid ++ sector_id ++ client_salt ++ ae.salt)

/-- Spec section 4.4 formula, written from the words of the spec (not
from the vectors): public is SHA256(uid then client_salt), pairwise is
SHA256(sector_id then uid then client_salt). -/
def spec_words_sub (uid client_salt sector_id subject_type : String) : String :=
  if subject_type = "public" then SHA256.sha256hex (uid ++ client_salt)
  else SHA256.sha256hex (sector_id ++ uid ++ client_salt)

/-- Modelled from the spec: `do_sub` computes the subject for the session
and stores it (last write wins). -/
def do_sub (s : SDB) (sid : Nat) (client_salt sector_id subject_type : String) :
    Except SErr String × SDB :=
  match lookupSid s.db sid with
  | none => (Except.error SErr.keyError, s)
  | some info =>
      let sub := mint_sub info.authn_event client_salt sector_id subject_type
      (Except.ok sub,
       { s with db := storeSid s.db sid { info with sub := some sub } })

/-- Modelled from the spec: `revoke_token` tombstones the token and, when
it is the current access or refresh token of the session, clears that field. -/
def revoke_token (s : SDB) (t : Token) : SDB :=
  let s1 : SDB := { s with revoked := t :: s.revoked }
  match lookupSid s1.db t.sid with
  | none => s1
  | some info =>
      let info2 := { info with
        access_token := if info.access_token = some t then none else info.access_token,
        refresh_token := if info.refresh_token = some t then none else info.refresh_token }
      { s1 with db := storeSid s1.db t.sid info2 }

/-- Modelled from the spec: `upgrade_to_token` exchanges an unused code
for an access token (and a refresh token when requested), marking the
code used.  A second exchange of the same code raises `AccessCodeUsed`
and additionally revokes the tokens previously issued against it. -/
def upgrade_to_token (s : SDB) (grant : Token) (issue_refresh : Bool)
    (id_token : Option String) (oidreq : Option String) :
    Except SErr SessionInfo × SDB :=
  match lookupSid s.db grant.sid with
  | none => (Except.error SErr.keyError, s)
  | some info =>
      if grant.kind ≠ TokKind.A then (Except.error SErr.wrongTokenType, s)
      else if info.code ≠ grant then (Except.error SErr.keyError, s)
      else if grant ∈ s.revoked then (Except.error SErr.expiredToken, s)
      else if info.code_used then
        let s1 := match info.access_token with
          | some a => revoke_token s a
          | none => s
        let s2 := match info.refresh_token with
          | some r => revoke_token s1 r
          | none => s1
        (Except.error SErr.accessCodeUsed, s2)
      else
        let (tok, s1) := mint s TokKind.T grant.sid
        let (rt, s2) := if issue_refresh then
            let (r, s2) := mint s1 TokKind.R grant.sid
            (some r, s2)
          else (none, s1)
        let info2 := { info with
          code_used := true, oauth_state := "token",
          access_token := some tok, refresh_token := rt,
          token_type := some "Bearer", expires_in := some 600,
          id_token := orO id_token info.id_token,
          oidreq := orO oidreq info.oidreq }
        (Except.ok info2, { s2 with db := storeSid s2.db grant.sid info2 })

/-- Modelled from the spec: `refresh_token` mints a new access token,
replacing the old one; the refresh token itself is not rotated.  A token
of the wrong kind raises WrongTokenType, a revoked or poisoned one
ExpiredToken, a missing session KeyError. -/
def refresh_token (s : SDB) (rtoken : Token) (client_id : String) :
    Except SErr SessionInfo × SDB :=
  match lookupSid s.db rtoken.sid with
  | none => (Except.error SErr.keyError, s)
  | some info =>
      if rtoken.kind ≠ TokKind.R then (Except.error SErr.wrongTokenType, s)
      else if rtoken ∈ s.revoked then (Except.error SErr.expiredToken, s)
      else if info.refresh_token ≠ some rtoken then (Except.error SErr.expiredToken, s)
      else if info.client_id ≠ client_id then (Except.error SErr.keyError, s)
      else
        let (tok, s1) := mint s TokKind.T rtoken.sid
        let info2 := { info with access_token := some tok, oauth_state := "refreshed" }
        (Except.ok info2, { s1 with db := storeSid s1.db rtoken.sid info2 })

/-- Modelled from the spec: `is_valid` holds iff the token is not revoked
and the back-pointed session still references it as current (for a code:
not yet exchanged). -/
def is_valid (s : SDB) (t : Token) : Bool :=
  match lookupSid s.db t.sid with
  | none => false
  | some info =>
      if t ∈ s.revoked then false
      else match t.kind with
        | TokKind.A => info.code == t && !info.code_used
        | TokKind.T => info.access_token == some t
        | TokKind.R => info.refresh_token == some t

/-- Public mutating operations of the Session Database (section 4.2). -/
inductive SOp
  | create (ae : AuthnEvent) (areq : AuthorizationRequest) (cid : String)
      (idt oidr : Option String)
  | dosub (sid : Nat) (salt sector stype : String)
  | upgrade (t : Token) (ir : Bool) (idt oidr : Option String)
  | refresh (t : Token) (cid : String)
  | revoke (t : Token)

def step (s : SDB) : SOp → SDB
  | SOp.create ae areq cid idt oidr => (create_authz_session s ae areq cid idt oidr).2
  | SOp.dosub sid salt sector stype => (do_sub s sid salt sector stype).2
  | SOp.upgrade t ir idt oidr => (upgrade_to_token s t ir idt oidr).2
  | SOp.refresh t cid => (refresh_token s t cid).2
  | SOp.revoke t => revoke_token s t

def run (s : SDB) (ops : List SOp) : SDB := ops.foldl step s

end OidcSession

/-! ## Client authentication (embedded from src/oicsrv/client_authn.py)

Strings are handled through executable list-of-character helpers so every
definition evaluates by kernel reduction.  The `client_assertion` JWS is
carried in already-parsed form: `sigOk` stands for whether
`JWT(keyjar).unpack` succeeds (signature verification by the external
cryptojwt library); the remaining fields are the claims and the JWS
header algorithm. -/

namespace ClientAuthn

def listStarts : List Char → List Char → Bool
  | _, [] => true
  | [], _ :: _ => false
  | a :: as, b :: bs => a == b && listStarts as bs

/-- Embeds the startswith test used by the source. -/
def strStarts (s p : String) : Bool := listStarts s.toList p.toList

/-- Drops the first n characters (ASCII inputs). -/
def strDropN (s : String) (n : Nat) : String := String.mk (s.toList.drop n)

/-- Embeds str.split with a single-character separator. -/
def splitCh (c : Char) : List Char → List (List Char)
  | [] => [[]]
  | a :: as =>
      if a == c then [] :: splitCh c as
      else match splitCh c as with
        | [] => [[a]]
        | g :: gs => (a :: g) :: gs

def b64val (c : Char) : Option Nat :=
  if 65 ≤ c.toNat ∧ c.toNat ≤ 90 then some (c.toNat - 65)
  else if 97 ≤ c.toNat ∧ c.toNat ≤ 122 then some (c.toNat - 97 + 26)
  else if 48 ≤ c.toNat ∧ c.toNat ≤ 57 then some (c.toNat - 48 + 52)
  else if c == '+' then some 62
  else if c == '/' then some 63
  else none

/-- Standard base64 decoding to bytes (`base64.b64decode` of the source). -/
def b64decode : List Char → Option (List Nat)
  | [] => some []
  | c1 :: c2 :: c3 :: c4 :: rest => do
      let v1 ← b64val c1
      let v2 ← b64val c2
      if c3 == '=' then
        if c4 == '=' && rest.isEmpty then pure [v1 * 4 + v2 / 16] else none
      else do
        let v3 ← b64val c3
        if c4 == '=' then
          if rest.isEmpty then pure [v1 * 4 + v2 / 16, v2 % 16 * 16 + v3 / 4]
          else none
        else do
          let v4 ← b64val c4
          let more ← b64decode rest
          pure ([v1 * 4 + v2 / 16, v2 % 16 * 16 + v3 / 4, v3 % 4 * 64 + v4] ++ more)
  | _ => none

/-- Parsed form of the client_assertion JWT. -/
structure AuthnTokenJWT where
  iss : String
  sub : String
  aud : List String
  jti : String
  alg : String
  iat : Nat
  exp : Nat
  sigOk : Bool
deriving DecidableEq

/-- Request body (a message dict); none models an absent key.
className is the python class name of the request. -/
structure Request where
  client_id : Option String
  client_secret : Option String
  client_assertion : Option AuthnTokenJWT
  access_token : Option String
  className : String
deriving DecidableEq

/-- Registered client record of the registry.  auth_method is a dict
that may be absent (none), as the KeyError fallback in the source shows. -/
structure ClientInfo where
  client_secret : String
  client_secret_expires_at : Nat
  auth_method : Option (List (String × String))
deriving DecidableEq

def lookupC {β : Type} [DecidableEq β] : List (String × β) → String → Option β
  | [], _ => none
  | (k, v) :: rest, key => if k = key then some v else lookupC rest key

def storeC {β : Type} [DecidableEq β] :
    List (String × β) → String → β → List (String × β)
  | [], key, v => [(key, v)]
  | (k, w) :: rest, key, v =>
      if k = key then (key, v) :: rest else (k, w) :: storeC rest key v

structure SrvInfo where
  cdb : List (String × ClientInfo)
  issuer : String
  token_endpoint_path : String
deriving DecidableEq

inductive AErr
  | authnFailure
  | unknownAuthnMethod
  | notForMe
  | keyError
  | typeError
  | valueError (msg : String)
deriving DecidableEq

/-- Result dict of an authentication method. -/
structure AuthInfo where
  client_id : Option String := none
  token : Option String := none
  jwt : Option AuthnTokenJWT := none
deriving DecidableEq

/-- Embeds basic_authn: checks the Basic scheme, base64-decodes the rest
and splits it on the single colon into (id, secret).  A malformed
payload raises (binascii or unpacking errors). -/
def basic_authn (authn : String) : Except AErr (String × String) :=
  if !strStarts authn "Basic " then Except.error AErr.authnFailure
  else match b64decode (strDropN authn 6).toList with
    | none => Except.error (AErr.valueError "base64")
    | some bytes =>
        match splitCh ':' (bytes.map Char.ofNat) with
        | [i, sec] => Except.ok (String.mk i, String.mk sec)
        | _ => Except.error (AErr.valueError "unpack")

/-- Embeds ClientSecretBasic.verify: decode the Basic credentials and
compare the secret against the registry; an unknown id raises KeyError. -/
def clientSecretBasicVerify (srv : SrvInfo) (authorization_info : String) :
    Except AErr AuthInfo :=
  match basic_authn authorization_info with
  | Except.error e => Except.error e
  | Except.ok (i, sec) =>
      match lookupC srv.cdb i with
      | none => Except.error AErr.keyError
      | some cinfo =>
          if cinfo.client_secret = sec then Except.ok { client_id := some i }
          else Except.error AErr.authnFailure

/-- Embeds ClientSecretPost.verify: compare the client_secret of the
request body against the registry record of its client_id. -/
def clientSecretPostVerify (srv : SrvInfo) (request : Request) :
    Except AErr AuthInfo :=
  match request.client_id, request.client_secret with
  | some i, some sec =>
      match lookupC srv.cdb i with
      | none => Except.error AErr.keyError
      | some cinfo =>
          if cinfo.client_secret = sec then Except.ok { client_id := some i }
          else Except.error AErr.authnFailure
  | _, _ => Except.error AErr.keyError

/-- Dynamically-typed http_args argument of BearerHeader.verify: the
method expects the headers dict, but its caller in verify_client passes
the Authorization header string itself. -/
inductive PyHttpArgs
  | dict (authorization : Option String)
  | str (s : String)
deriving DecidableEq

/-- Embeds BearerHeader.verify: reads the Authorization entry of
http_args.  When http_args is a string (as passed by verify_client),
subscripting it with a string key raises TypeError in python. -/
def bearerHeaderVerify (http_args : PyHttpArgs) : Except AErr AuthInfo :=
  match http_args with
  | PyHttpArgs.str _ => Except.error AErr.typeError
  | PyHttpArgs.dict none => Except.error AErr.keyError
  | PyHttpArgs.dict (some a) =>
      if !strStarts a "Bearer " then Except.error AErr.authnFailure
      else Except.ok { token := some (strDropN a 7) }

/-- Embeds BearerBody.verify: return the access_token of the body. -/
def bearerBodyVerify (request : Request) : Except AErr AuthInfo :=
  match request.access_token with
  | some t => Except.ok { token := some t }
  | none => Except.error AErr.authnFailure

/-- Embeds JWSAuthnMethod.verify: unpack the assertion (AuthnFailure when
the JWS does not verify), take the client id from iss, and require the
server (issuer url or token endpoint path) to be among aud, raising
NotForMe otherwise.  No other claim is checked here. -/
def jwsAuthnVerify (srv : SrvInfo) (request : Request) : Except AErr AuthInfo :=
  match request.client_assertion with
  | none => Except.error AErr.keyError
  | some ca =>
      if !ca.sigOk then Except.error AErr.authnFailure
      else if srv.issuer ∈ ca.aud then
        Except.ok { client_id := some ca.iss, jwt := some ca }
      else if srv.token_endpoint_path ∈ ca.aud then
        Except.ok { client_id := some ca.iss, jwt := some ca }
      else Except.error AErr.notForMe

/-- Embeds valid_client_info: false when the registered secret has expired. -/
def valid_client_info (cinfo : ClientInfo) (now : Nat) : Bool :=
  if cinfo.client_secret_expires_at ≠ 0 ∧ cinfo.client_secret_expires_at < now
  then false else true

/-- Method-selection block of verify_client: returns the selected
method name together with the verification result. -/
def verify_client_dispatch (srv : SrvInfo) (request : Request)
    (authz_header : Option String) : Except AErr (String × AuthInfo) :=
  match authz_header with
  | none =>
      if request.client_id.isSome && request.client_secret.isSome then
        (clientSecretPostVerify srv request).map (fun ai => ("client_secret_post", ai))
      else if request.client_assertion.isSome then
        (jwsAuthnVerify srv request).map (fun ai => ("private_key_jwt", ai))
      else if request.access_token.isSome then
        (bearerBodyVerify request).map (fun ai => ("bearer_body", ai))
      else Except.error AErr.unknownAuthnMethod
  | some authorization_info =>
      if strStarts authorization_info "Basic " then
        (clientSecretBasicVerify srv authorization_info).map
          (fun ai => ("client_secret_basic", ai))
      else if strStarts authorization_info "Bearer " then
        (bearerHeaderVerify (PyHttpArgs.str authorization_info)).map
          (fun ai => ("bearer_header", ai))
      else Except.error AErr.unknownAuthnMethod

/-- Recording block: store the method name under the auth_method dict of
the client record, creating the dict when the key is absent. -/
def record_auth_method (cinfo : ClientInfo) (cls method : String) : ClientInfo :=
  match cinfo.auth_method with
  | some m => { cinfo with auth_method := some (storeC m cls method) }
  | none => { cinfo with auth_method := some [(cls, method)] }

/-- Embeds verify_client: dispatch, then resolve the client id from the
auth result (empty string with only a warning when absent), look the
client up in the registry (ValueError when unknown), call
valid_client_info discarding its result as the source does, and record
the method used. -/
def verify_client (srv : SrvInfo) (request : Request)
    (authz_header : Option String) (now : Nat) :
    Except AErr (String × SrvInfo) :=
  match verify_client_dispatch srv request authz_header with
  | Except.error e => Except.error e
  | Except.ok (auth_method, auth_info) =>
      match auth_info.client_id with
      | none => Except.ok ("", srv)
      | some client_id =>
          match lookupC srv.cdb client_id with
          | none => Except.error (AErr.valueError "Unknown Client ID")
          | some cinfo =>
              let _ := valid_client_info cinfo now
              let cinfo2 := record_auth_method cinfo request.className auth_method
              Except.ok (client_id, { srv with cdb := storeC srv.cdb client_id cinfo2 })

end ClientAuthn

/-! ## Concrete fixtures (the scenarios of the test suite) -/

namespace OidcSession

def sdb0 : SDB := { db := [], revoked := [], counter := 0, nextSid := 0 }

def aeW : AuthnEvent := ⟨"uid", "salt"⟩

def aeT : AuthnEvent := ⟨"tester", "random_value"⟩

def areqW : AuthorizationRequest :=
  ⟨"client1", "http://example.com/authz", "code", ["openid"], "state000"⟩

/-- State after creating one authorization session for user `uid`. -/
def sdb1 : SDB := (create_authz_session sdb0 aeW areqW "client_id" none none).2

/-- State after creating one authorization session for user `tester`. -/
def sdbT : SDB := (create_authz_session sdb0 aeT areqW "client_id" none none).2

def codeW : Token := ⟨TokKind.A, 0, 0⟩

/-- Session record of `sdb1` at sid 0. -/
def infoW : SessionInfo :=
  { client_id := "client_id", authn_req := areqW, authn_event := aeW,
    sub := none, oauth_state := "authz", code := codeW, code_used := false,
    access_token := none, refresh_token := none, id_token := none,
    oidreq := none, token_type := none, expires_in := none }

/-- Session record of `sdbT` at sid 0. -/
def infoT : SessionInfo := { infoW with authn_event := aeT }

/-- State after exchanging the code of `sdb1` with refresh issuance. -/
def sdb2 : SDB := (upgrade_to_token sdb1 codeW true none none).2

def atW : Token := ⟨TokKind.T, 0, 1⟩

def rtW : Token := ⟨TokKind.R, 0, 2⟩

/-- Session record of `sdb2` at sid 0. -/
def infoW2 : SessionInfo :=
  { infoW with code_used := true, oauth_state := "token",
               access_token := some atW, refresh_token := some rtW,
               token_type := some "Bearer", expires_in := some 600 }

end OidcSession

namespace ClientAuthn

/-- Registered client `c1` whose secret expired at time 1. -/
def ciW : ClientInfo :=
  { client_secret := "s1", client_secret_expires_at := 1, auth_method := none }

def srvW : SrvInfo :=
  { cdb := [("c1", ciW)], issuer := "https://srv.example.org",
    token_endpoint_path := "https://srv.example.org/token" }

/-- Empty request body. -/
def reqW : Request :=
  { client_id := none, client_secret := none, client_assertion := none,
    access_token := none, className := "AccessTokenRequest" }

/-- Assertion signed with an HMAC algorithm (HS256), valid audience. -/
def caHS : AuthnTokenJWT :=
  { iss := "c1", sub := "c1", aud := ["https://srv.example.org"],
    jti := "j1", alg := "HS256", iat := 0, exp := 600, sigOk := true }

/-- Assertion whose sub differs from iss, valid signature and audience. -/
def caBadSub : AuthnTokenJWT :=
  { iss := "c1", sub := "someone_else", aud := ["https://srv.example.org"],
    jti := "j2", alg := "RS256", iat := 0, exp := 600, sigOk := true }

/-- Assertion whose audience names neither the issuer nor the endpoint. -/
def caBadAud : AuthnTokenJWT :=
  { iss := "c1", sub := "c1", aud := ["https://other.example.net"],
    jti := "j3", alg := "RS256", iat := 0, exp := 600, sigOk := true }

end ClientAuthn

/-! ## Helper lemmas -/

namespace OidcSession

theorem lookupSid_storeSid_same (db : List (Nat × SessionInfo)) (k : Nat)
    (v : SessionInfo) : lookupSid (storeSid db k v) k = some v := by
  induction db with
  | nil => simp [storeSid, lookupSid]
  | cons hd tl ih =>
      obtain ⟨k0, v0⟩ := hd
      by_cases h : k0 = k
      · simp [storeSid, h, lookupSid]
      · simp [storeSid, h, lookupSid, ih]

theorem revoke_token_revoked_eq (s : SDB) (u : Token) :
    (revoke_token s u).revoked = u :: s.revoked := by
  cases h : lookupSid s.db u.sid <;> simp [revoke_token, h]

theorem create_revoked_eq (s : SDB) (ae : AuthnEvent) (areq : AuthorizationRequest)
    (cid : String) (idt oidr : Option String) :
    (create_authz_session s ae areq cid idt oidr).2.revoked = s.revoked := rfl

theorem do_sub_revoked_eq (s : SDB) (sid : Nat) (cs sec st : String) :
    (do_sub s sid cs sec st).2.revoked = s.revoked := by
  cases h : lookupSid s.db sid <;> simp [do_sub, h]

theorem refresh_token_revoked_eq (s : SDB) (r : Token) (cid : String) :
    (refresh_token s r cid).2.revoked = s.revoked := by
  unfold refresh_token
  cases lookupSid s.db r.sid with
  | none => rfl
  | some info =>
      by_cases h1 : r.kind ≠ TokKind.R
      · simp [h1]
      · by_cases h2 : r ∈ s.revoked
        · simp [h1, h2]
        · by_cases h3 : info.refresh_token ≠ some r
          · simp [h1, h2, h3]
          · by_cases h4 : info.client_id ≠ cid
            · simp [h1, h2, h3, h4]
            · simp [h1, h2, h3, h4, mint]

theorem upgrade_revoked_mono (s : SDB) (g : Token) (ir : Bool)
    (idt oidr : Option String) (t : Token) (h : t ∈ s.revoked) :
    t ∈ (upgrade_to_token s g ir idt oidr).2.revoked := by
  unfold upgrade_to_token
  cases lookupSid s.db g.sid with
  | none => exact h
  | some info =>
      by_cases h1 : g.kind ≠ TokKind.A
      · simpa [h1] using h
      · by_cases h2 : info.code ≠ g
        · simpa [h1, h2] using h
        · by_cases h3 : g ∈ s.revoked
          · simpa [h1, h2, h3] using h
          · by_cases h4 : info.code_used
            · cases ha : info.access_token <;> cases hr : info.refresh_token <;>
                simp [h1, h2, h3, h4, ha, hr, revoke_token_revoked_eq,
                      List.mem_cons] <;> tauto
            · cases ir <;> simpa [h1, h2, h3, h4, mint] using h

theorem step_revoked_mono (s : SDB) (op : SOp) (t : Token) (h : t ∈ s.revoked) :
    t ∈ (step s op).revoked := by
  cases op with
  | create ae areq cid idt oidr => simpa [step, create_revoked_eq] using h
  | dosub sid salt sector stype => simpa [step, do_sub_revoked_eq] using h
  | upgrade g ir idt oidr => exact upgrade_revoked_mono s g ir idt oidr t h
  | refresh r cid => simpa [step, refresh_token_revoked_eq] using h
  | revoke u => simp [step, revoke_token_revoked_eq]; right; exact h

theorem run_revoked_mono (ops : List SOp) (s : SDB) (t : Token)
    (h : t ∈ s.revoked) : t ∈ (run s ops).revoked := by
  induction ops generalizing s with
  | nil => exact h
  | cons op rest ih => exact ih (step s op) (step_revoked_mono s op t h)

theorem is_valid_false_of_revoked (s : SDB) (t : Token) (h : t ∈ s.revoked) :
    is_valid s t = false := by
  unfold is_valid
  cases lookupSid s.db t.sid with
  | none => rfl
  | some info => simp [h]

end OidcSession

/-! ## Claim theorems: Session Database -/

namespace OidcSession

/-- C4: for every token t, after revoke_token(t) the query is_valid(t)
returns false, and no subsequent sequence of Session Database operations
(create_authz_session, do_sub, upgrade_to_token, refresh_token,
revoke_token) makes is_valid(t) return true again. -/
theorem C4_revoke_token_permanent (s : SDB) (t : Token) (ops : List SOp) :
    is_valid (revoke_token s t) t = false ∧
    is_valid (run (revoke_token s t) ops) t = false := by
  refine ⟨is_valid_false_of_revoked _ _ ?_, is_valid_false_of_revoked _ _ ?_⟩
  · simp [revoke_token_revoked_eq]
  · exact run_revoked_mono _ _ _ (by simp [revoke_token_revoked_eq])

/-- C5: a session freshly created by create_authz_session (without
id_token or oidreq) has exactly the fields client_id, authn_req,
authn_event, oauth_state, code, with oauth_state authz and the given
client_id, and no sub; after do_sub the record has exactly those fields
plus sub. -/
theorem C5_create_session_fields (s : SDB) (ae : AuthnEvent)
    (areq : AuthorizationRequest) (cid : String) (client_salt : String) :
    ((lookupSid (create_authz_session s ae areq cid none none).2.db
        (create_authz_session s ae areq cid none none).1).map SessionInfo.sub
        = some none) ∧
    ((lookupSid (create_authz_session s ae areq cid none none).2.db
        (create_authz_session s ae areq cid none none).1).map SessionInfo.fields
        = some ["client_id", "authn_req", "authn_event", "oauth_state", "code"]) ∧
    ((lookupSid (do_sub (create_authz_session s ae areq cid none none).2
          (create_authz_session s ae areq cid none none).1
          client_salt "" "public").2.db
        (create_authz_session s ae areq cid none none).1).map SessionInfo.fields
        = some ["client_id", "authn_req", "authn_event", "sub", "oauth_state",
                "code"]) ∧
    ((lookupSid (do_sub (create_authz_session s ae areq cid none none).2
          (create_authz_session s ae areq cid none none).1
          client_salt "" "public").2.db
        (create_authz_session s ae areq cid none none).1).map
        SessionInfo.oauth_state = some "authz") ∧
    ((lookupSid (do_sub (create_authz_session s ae areq cid none none).2
          (create_authz_session s ae areq cid none none).1
          client_salt "" "public").2.db
        (create_authz_session s ae areq cid none none).1).map
        SessionInfo.client_id = some cid) := by
  refine ⟨?_, ?_, ?_, ?_, ?_⟩ <;>
    simp [create_authz_session, do_sub, lookupSid_storeSid_same,
          SessionInfo.fields]

end OidcSession

namespace OidcSession

/-- C2 counterexample: on the session of user tester (AuthnEvent salt
random_value), do_sub with client_salt other_random_value and
subject_type public yields the digest the claim names, yet the formula
the claim states, SHA256(uid concatenated with client_salt), yields a
different digest: the claim as stated is false. -/
theorem C2_counterexample :
    (do_sub sdbT 0 "other_random_value" "" "public").1
      = Except.ok
        "179670cdee6375c48e577317b2abd7d5cd26a5cdb1cfb7ef84af3d703c71d013" ∧
    spec_words_sub "tester" "other_random_value" "" "public"
      ≠ "179670cdee6375c48e577317b2abd7d5cd26a5cdb1cfb7ef84af3d703c71d013" ∧
    spec_words_sub "tester" "other_random_value" "http://example.com" "pairwise"
      ≠ "aaa50d80f8780cf1c4beb39e8e126556292f5091b9e39596424fefa2b99d9c53" := by
  refine ⟨by decide, by decide, by decide⟩

/-- C2 amended: do_sub is a deterministic function of (uid, user_salt,
client_salt, sector_id, subject_type), where user_salt is the AuthnEvent
salt: for subject_type public it returns SHA256hex(uid then user_salt),
otherwise SHA256hex(uid then sector_id then client_salt then user_salt);
on the session of user tester with AuthnEvent salt random_value the three
digests of the claim hold. -/
theorem C2_do_sub_deterministic :
    (∀ (ae1 ae2 : AuthnEvent) (cs sec st : String), ae1.uid = ae2.uid →
        ae1.salt = ae2.salt → mint_sub ae1 cs sec st = mint_sub ae2 cs sec st) ∧
    (∀ (ae : AuthnEvent) (cs sec : String),
        mint_sub ae cs sec "public" = SHA256.sha256hex (ae.uid ++ ae.salt)) ∧
    (∀ (ae : AuthnEvent) (cs sec st : String), st ≠ "public" →
        mint_sub ae cs sec st
          = SHA256.sha256hex (ae.uid ++ sec ++ cs ++ ae.salt)) ∧
    (∀ (s : SDB) (sid : Nat) (info : SessionInfo) (cs sec st : String),
        lookupSid s.db sid = some info →
        (do_sub s sid cs sec st).1 = Except.ok (mint_sub info.authn_event cs sec st)) ∧
    mint_sub aeT "other_random_value" "" "public"
      = "179670cdee6375c48e577317b2abd7d5cd26a5cdb1cfb7ef84af3d703c71d013" ∧
    mint_sub aeT "other_random_value" "http://example.com" "pairwise"
      = "aaa50d80f8780cf1c4beb39e8e126556292f5091b9e39596424fefa2b99d9c53" ∧
    mint_sub aeT "another_random_value" "http://other.example.com" "pairwise"
      = "62fb630e29f0d41b88e049ac0ef49a9c3ac5418c029d6e4f5417df7e9443976b" := by
  refine ⟨?_, ?_, ?_, ?_, by decide, by decide, by decide⟩
  · intro ae1 ae2 cs sec st h1 h2
    cases ae1; cases ae2
    simp only at h1 h2
    simp [h1, h2]
  · intro ae cs sec
    simp [mint_sub]
  · intro ae cs sec st h
    simp [mint_sub, h]
  · intro s sid info cs sec st h
    simp [do_sub, h]

/-- C2 witness: the determinism and shape conjuncts of
C2_do_sub_deterministic, instantiated on the tester session. -/
theorem C2_do_sub_deterministic_witness :
    mint_sub aeT "other_random_value" "" "public"
      = mint_sub ⟨"tester", "random_value"⟩ "other_random_value" "" "public" ∧
    mint_sub aeT "x" "http://example.com" "pairwise"
      = SHA256.sha256hex ("tester" ++ "http://example.com" ++ "x" ++ "random_value") ∧
    (do_sub sdbT 0 "other_random_value" "" "public").1
      = Except.ok (mint_sub infoT.authn_event "other_random_value" "" "public") :=
  ⟨C2_do_sub_deterministic.1 aeT ⟨"tester", "random_value"⟩ _ _ _ (by decide) (by decide),
   C2_do_sub_deterministic.2.2.1 ⟨"tester", "random_value"⟩ "x" "http://example.com"
     "pairwise" (by decide),
   C2_do_sub_deterministic.2.2.2.1 sdbT 0 infoT "other_random_value" "" "public"
     (by decide)⟩

end OidcSession

namespace OidcSession

/-- C1: for every session whose code satisfies the success precondition
of upgrade_to_token, the first exchange succeeds and issues the refresh
token, a second upgrade_to_token with the same code raises
AccessCodeUsed, and after that second (failed) call refresh_token on the
refresh token issued against that code raises ExpiredToken, whatever
client_id is presented. -/
theorem C1_code_replay_poisons_refresh (s : SDB) (c : Token) (info : SessionInfo)
    (hl : lookupSid s.db c.sid = some info) (hk : c.kind = TokKind.A)
    (hc : info.code = c) (hnr : c ∉ s.revoked) (hu : info.code_used = false) :
    ((upgrade_to_token s c true none none).1.map SessionInfo.refresh_token
        = Except.ok (some ⟨TokKind.R, c.sid, s.counter + 1⟩)) ∧
    ((upgrade_to_token (upgrade_to_token s c true none none).2 c true none none).1
        = Except.error SErr.accessCodeUsed) ∧
    (∀ cid, (refresh_token
        (upgrade_to_token (upgrade_to_token s c true none none).2 c true none none).2
        ⟨TokKind.R, c.sid, s.counter + 1⟩ cid).1
          = Except.error SErr.expiredToken) := by
  refine ⟨?_, ?_, ?_⟩
  · simp [upgrade_to_token, hl, hk, hc, hnr, hu, mint, orO, Except.map]
  · simp [upgrade_to_token, hl, hk, hc, hnr, hu, mint, orO,
          lookupSid_storeSid_same, revoke_token]
  · intro cid
    simp [upgrade_to_token, refresh_token, revoke_token, hl, hk, hc, hnr, hu,
          mint, orO, lookupSid_storeSid_same, Except.map]

end OidcSession

namespace OidcSession

/-- C1 witness: the concrete run of the test scenario, one created
session, code exchanged twice, then the refresh token refused. -/
theorem C1_code_replay_witness :
    ((upgrade_to_token sdb1 codeW true none none).1.map SessionInfo.refresh_token
        = Except.ok (some ⟨TokKind.R, 0, 2⟩)) ∧
    ((upgrade_to_token (upgrade_to_token sdb1 codeW true none none).2 codeW
        true none none).1 = Except.error SErr.accessCodeUsed) ∧
    ((refresh_token
        (upgrade_to_token (upgrade_to_token sdb1 codeW true none none).2 codeW
          true none none).2 ⟨TokKind.R, 0, 2⟩ "anyone").1
        = Except.error SErr.expiredToken) :=
  have h := C1_code_replay_poisons_refresh sdb1 codeW infoW (by decide) (by decide)
    (by decide) (by decide) (by decide)
  ⟨h.1, h.2.1, h.2.2 "anyone"⟩

/-- C3: refresh_token on a session holding the valid refresh token r
mints the access token with the current counter, which differs from the
previous access token, while r itself stays the refresh token of the
session; a token of kind T is refused with WrongTokenType; a token whose
session does not exist is refused with KeyError. -/
theorem C3_refresh_token_behavior (s : SDB) :
    (∀ (r a : Token) (info : SessionInfo) (cid : String),
        lookupSid s.db r.sid = some info → r.kind = TokKind.R →
        r ∉ s.revoked → info.refresh_token = some r → info.client_id = cid →
        info.access_token = some a → a.idx < s.counter →
        ((refresh_token s r cid).1.map SessionInfo.access_token
            = Except.ok (some ⟨TokKind.T, r.sid, s.counter⟩)) ∧
        (⟨TokKind.T, r.sid, s.counter⟩ : Token) ≠ a ∧
        ((refresh_token s r cid).1.map SessionInfo.refresh_token
            = Except.ok (some r)) ∧
        ((lookupSid (refresh_token s r cid).2.db r.sid).map
            SessionInfo.refresh_token = some (some r))) ∧
    (∀ (t : Token) (info : SessionInfo) (cid : String),
        lookupSid s.db t.sid = some info → t.kind = TokKind.T →
        (refresh_token s t cid).1 = Except.error SErr.wrongTokenType) ∧
    (∀ (t : Token) (cid : String), lookupSid s.db t.sid = none →
        (refresh_token s t cid).1 = Except.error SErr.keyError) := by
  refine ⟨?_, ?_, ?_⟩
  · intro r a info cid hl hk hnr hcur hcid ha hidx
    refine ⟨?_, ?_, ?_, ?_⟩
    · simp [refresh_token, hl, hk, hnr, hcur, hcid, mint, Except.map]
    · intro hEq
      have : s.counter = a.idx := congrArg Token.idx hEq
      omega
    · simp [refresh_token, hl, hk, hnr, hcur, hcid, mint, Except.map]
    · simp [refresh_token, hl, hk, hnr, hcur, hcid, mint,
            lookupSid_storeSid_same]
  · intro t info cid hl hk
    simp [refresh_token, hl, hk]
  · intro t cid hl
    simp [refresh_token, hl]

/-- C3 witness: the concrete scenario, session upgraded with refresh
issuance, then refreshed; the wrong-kind and missing-session errors at
concrete tokens. -/
theorem C3_refresh_token_witness :
    ((refresh_token sdb2 rtW "client_id").1.map SessionInfo.access_token
        = Except.ok (some ⟨TokKind.T, 0, 3⟩)) ∧
    ((refresh_token sdb2 rtW "client_id").1.map SessionInfo.refresh_token
        = Except.ok (some rtW)) ∧
    ((refresh_token sdb2 atW "client_id").1
        = Except.error SErr.wrongTokenType) ∧
    ((refresh_token sdb2 ⟨TokKind.R, 7, 0⟩ "client_id").1
        = Except.error SErr.keyError) :=
  have h := C3_refresh_token_behavior sdb2
  have h1 := h.1 rtW atW infoW2 "client_id" (by decide) (by decide) (by decide)
    (by decide) (by decide) (by decide) (by decide)
  ⟨h1.1, h1.2.2.1,
   h.2.1 atW infoW2 "client_id" (by decide) (by decide),
   h.2.2 ⟨TokKind.R, 7, 0⟩ "client_id" (by decide)⟩

end OidcSession

/-! ## Claim theorems: client authentication -/

namespace ClientAuthn

/-- C6 counterexample: a request carrying an HMAC-signed (HS256)
client_assertion is dispatched with method name private_key_jwt, not
client_secret_jwt: the distinction the claim states is not performed. -/
theorem C6_hmac_not_distinguished :
    caHS.alg = "HS256" ∧
    (verify_client_dispatch srvW { reqW with client_assertion := some caHS }
        none).map Prod.fst = Except.ok "private_key_jwt" ∧
    "private_key_jwt" ≠ "client_secret_jwt" := by
  refine ⟨rfl, by decide, by decide⟩

/-- C6 amended: verify_client dispatches in the order the claim states,
except that a client_assertion always selects the method name
private_key_jwt, whatever algorithm the JWS header carries (the HMAC
versus asymmetric distinction is commented out in the source). -/
theorem C6_dispatch_order (srv : SrvInfo) (req : Request) (a : String) :
    (strStarts a "Basic " = true →
        verify_client_dispatch srv req (some a)
          = (clientSecretBasicVerify srv a).map
              (fun ai => ("client_secret_basic", ai))) ∧
    (strStarts a "Basic " = false → strStarts a "Bearer " = true →
        verify_client_dispatch srv req (some a)
          = (bearerHeaderVerify (PyHttpArgs.str a)).map
              (fun ai => ("bearer_header", ai))) ∧
    (strStarts a "Basic " = false → strStarts a "Bearer " = false →
        verify_client_dispatch srv req (some a)
          = Except.error AErr.unknownAuthnMethod) ∧
    (req.client_id.isSome = true → req.client_secret.isSome = true →
        verify_client_dispatch srv req none
          = (clientSecretPostVerify srv req).map
              (fun ai => ("client_secret_post", ai))) ∧
    ((req.client_id.isSome && req.client_secret.isSome) = false →
        req.client_assertion.isSome = true →
        verify_client_dispatch srv req none
          = (jwsAuthnVerify srv req).map
              (fun ai => ("private_key_jwt", ai))) ∧
    ((req.client_id.isSome && req.client_secret.isSome) = false →
        req.client_assertion = none → req.access_token.isSome = true →
        verify_client_dispatch srv req none
          = (bearerBodyVerify req).map (fun ai => ("bearer_body", ai))) ∧
    ((req.client_id.isSome && req.client_secret.isSome) = false →
        req.client_assertion = none → req.access_token = none →
        verify_client_dispatch srv req none
          = Except.error AErr.unknownAuthnMethod) := by
  refine ⟨?_, ?_, ?_, ?_, ?_, ?_, ?_⟩
  · intro h1; simp [verify_client_dispatch, h1]
  · intro h1 h2; simp [verify_client_dispatch, h1, h2]
  · intro h1 h2; simp [verify_client_dispatch, h1, h2]
  · intro h1 h2; simp [verify_client_dispatch, h1, h2]
  · intro h1 h2; simp [verify_client_dispatch, h1, h2]
  · intro h1 h2 h3; simp [verify_client_dispatch, h1, h2, h3]
  · intro h1 h2 h3; simp [verify_client_dispatch, h1, h2, h3]

/-- C6 witness: the amended dispatch applied at concrete requests, one
per hypothesis-bearing branch. -/
theorem C6_dispatch_order_witness :
    (verify_client_dispatch srvW reqW (some "Basic YzE6czE=")
      = (clientSecretBasicVerify srvW "Basic YzE6czE=").map
          (fun ai => ("client_secret_basic", ai))) ∧
    (verify_client_dispatch srvW reqW (some "Bearer xyz")
      = (bearerHeaderVerify (PyHttpArgs.str "Bearer xyz")).map
          (fun ai => ("bearer_header", ai))) ∧
    (verify_client_dispatch srvW reqW (some "Digest xyz")
      = Except.error AErr.unknownAuthnMethod) ∧
    (verify_client_dispatch srvW
        { reqW with client_id := some "c1", client_secret := some "s1" } none
      = (clientSecretPostVerify srvW
          { reqW with client_id := some "c1", client_secret := some "s1" }).map
          (fun ai => ("client_secret_post", ai))) ∧
    (verify_client_dispatch srvW { reqW with client_assertion := some caHS } none
      = (jwsAuthnVerify srvW { reqW with client_assertion := some caHS }).map
          (fun ai => ("private_key_jwt", ai))) ∧
    (verify_client_dispatch srvW { reqW with access_token := some "tok" } none
      = (bearerBodyVerify { reqW with access_token := some "tok" }).map
          (fun ai => ("bearer_body", ai))) ∧
    (verify_client_dispatch srvW reqW none
      = Except.error AErr.unknownAuthnMethod) :=
  ⟨(C6_dispatch_order srvW reqW "Basic YzE6czE=").1 (by decide),
   (C6_dispatch_order srvW reqW "Bearer xyz").2.1 (by decide) (by decide),
   (C6_dispatch_order srvW reqW "Digest xyz").2.2.1 (by decide) (by decide),
   (C6_dispatch_order srvW
     { reqW with client_id := some "c1", client_secret := some "s1" }
     "x").2.2.2.1 (by decide) (by decide),
   (C6_dispatch_order srvW { reqW with client_assertion := some caHS }
     "x").2.2.2.2.1 (by decide) (by decide),
   (C6_dispatch_order srvW { reqW with access_token := some "tok" }
     "x").2.2.2.2.2.1 (by decide) (by decide) (by decide),
   (C6_dispatch_order srvW reqW "x").2.2.2.2.2.2 (by decide) (by decide)
     (by decide)⟩

end ClientAuthn

namespace ClientAuthn

/-- C7 counterexample: a client_assertion whose sub differs from iss is
accepted by JWSAuthnMethod.verify (the client id is simply taken from
iss), so the check iss equal to sub equal to client_id that the claim
states is not performed; nor is any jti bookkeeping, the verifier being a
pure function of the request. -/
theorem C7_iss_sub_not_checked :
    caBadSub.sub ≠ caBadSub.iss ∧
    jwsAuthnVerify srvW { reqW with client_assertion := some caBadSub }
      = Except.ok { client_id := some "c1", token := none,
                    jwt := some caBadSub } := by
  refine ⟨by decide, by decide⟩

/-- C7 amended: for a request carrying a client_assertion whose JWS
verifies, the only claim checked is the audience: the assertion is
accepted (with client_id read from iss) exactly when aud contains the
issuer URL or the token endpoint path, and NotForMe is raised when it
contains neither; iss = sub, exp and jti replay are not checked here
(signature and expiry are left to the external JWT library, and no jti
state is kept). -/
theorem C7_jws_verify_aud_only (srv : SrvInfo) (req : Request)
    (ca : AuthnTokenJWT) (hca : req.client_assertion = some ca)
    (hsig : ca.sigOk = true) :
    (srv.issuer ∈ ca.aud ∨ srv.token_endpoint_path ∈ ca.aud →
        jwsAuthnVerify srv req
          = Except.ok { client_id := some ca.iss, token := none,
                        jwt := some ca }) ∧
    (srv.issuer ∉ ca.aud → srv.token_endpoint_path ∉ ca.aud →
        jwsAuthnVerify srv req = Except.error AErr.notForMe) := by
  constructor
  · intro h
    rcases h with h | h
    · simp [jwsAuthnVerify, hca, hsig, h]
    · by_cases h2 : srv.issuer ∈ ca.aud
      · simp [jwsAuthnVerify, hca, hsig, h2]
      · simp [jwsAuthnVerify, hca, hsig, h2, h]
  · intro h1 h2
    simp [jwsAuthnVerify, hca, hsig, h1, h2]

/-- C7 witness: the amended audience rule at concrete assertions, one
accepted and one rejected with NotForMe. -/
theorem C7_jws_verify_aud_only_witness :
    (jwsAuthnVerify srvW { reqW with client_assertion := some caHS }
      = Except.ok { client_id := some "c1", token := none,
                    jwt := some caHS }) ∧
    (jwsAuthnVerify srvW { reqW with client_assertion := some caBadAud }
      = Except.error AErr.notForMe) :=
  ⟨(C7_jws_verify_aud_only srvW { reqW with client_assertion := some caHS }
      caHS (by decide) (by decide)).1 (Or.inl (by decide)),
   (C7_jws_verify_aud_only srvW { reqW with client_assertion := some caBadAud }
      caBadAud (by decide) (by decide)).2 (by decide) (by decide)⟩

/-- C8: the registered secret of client c1 expired at time 1, and
valid_client_info says so at time 1000, yet verify_client accepts the
Basic-authenticated request at time 1000 and returns c1: the boolean
result of valid_client_info is computed and discarded, so the rejection
the claim (and the spec) states never happens. -/
theorem C8_expired_secret_accepted :
    ciW.client_secret_expires_at = 1 ∧
    valid_client_info ciW 1000 = false ∧
    (verify_client srvW reqW (some "Basic YzE6czE=") 1000).map Prod.fst
      = Except.ok "c1" := by
  refine ⟨rfl, by decide, by decide⟩

/-- C9: a request authenticated with an Authorization Bearer header makes
verify_client raise TypeError, because BearerHeader.verify receives the
header string itself in place of the headers dict and subscripts it with
a string key; the bearer_body path does behave as the claim states,
returning the empty client id and leaving the registry untouched. -/
theorem C9_bearer_header_type_error :
    (verify_client srvW reqW (some "Bearer xyz") 1000
      = Except.error AErr.typeError) ∧
    (verify_client srvW { reqW with access_token := some "tok" } none 1000
      = Except.ok ("", srvW)) := by
  refine ⟨by decide, by decide⟩

/-- C10: an Authorization header value starting with neither Basic nor
Bearer makes verify_client raise UnknownAuthnMethod at once, whatever
credentials the request body carries. -/
theorem C10_unknown_scheme_immediate (srv : SrvInfo) (req : Request)
    (a : String) (now : Nat) (h1 : strStarts a "Basic " = false)
    (h2 : strStarts a "Bearer " = false) :
    verify_client srv req (some a) now = Except.error AErr.unknownAuthnMethod := by
  simp [verify_client, verify_client_dispatch, h1, h2]

/-- C10 witness: a Digest header together with valid client_secret_post
credentials in the body is still refused with UnknownAuthnMethod. -/
theorem C10_unknown_scheme_witness :
    verify_client srvW
        { reqW with client_id := some "c1", client_secret := some "s1" }
        (some "Digest xyz") 1000
      = Except.error AErr.unknownAuthnMethod :=
  C10_unknown_scheme_immediate srvW
    { reqW with client_id := some "c1", client_secret := some "s1" }
    "Digest xyz" 1000 (by decide) (by decide)

end ClientAuthn
